import Mathlib

/-!
Shallow embedding of the transactional outbox/inbox delivery subsystem of
the backend-labs order pipeline (Go), and proofs about it.

Conventions of the embedding:
* machine times (`time.Time`) are modelled as `Nat` seconds;
* `int`/`int64` fields are modelled as `Int` where the value can be
  arbitrary and as `Nat` where the program only ever stores counts;
* byte slices (`[]byte`) are `List Nat` (each entry a byte value);
* external effects (broker publish, JSON unmarshal, SQL execution
  failures) are supplied as explicit environment oracles, so every
  control path of the Go code becomes a pure function of the oracle
  answers;
* the two PostgreSQL queue tables are `List` values; a SQL
  `SELECT ... WHERE ... ORDER BY ... LIMIT` becomes filter, sort, take.
-/

namespace OMS

/-- Consumer-side order message, from
`consumer/internal/service/models/order`: fields `id`, `customerId`,
`deliveryAddress`, `orderItems`. -/
structure COrderItem where
  id : Int
  orderId : Int
  productId : Int
  quantity : Int
  createdAt : Nat
  updatedAt : Nat
deriving Repr, DecidableEq

/-- Consumer-side `order.Order` model (the JSON shape received from
RabbitMQ). -/
structure COrder where
  id : Int
  customerId : Int
  deliveryAddress : String
  orderItems : List COrderItem
deriving Repr, DecidableEq

/-- Audit log row `models.AuditLogOrder` of the consumer service. -/
structure AuditLogOrder where
  orderId : Int
  orderItemId : Int
  customerId : Int
  orderStatus : String
  createdAt : Nat
  updatedAt : Nat
deriving Repr, DecidableEq

/-- Row of the producer-side `outbox` table
(`order/internal/service/models/outbox.OutboxMessage`). -/
structure OutboxMessage where
  id : Int
  queueName : String
  exchangeName : String
  routingKey : String
  payload : List Nat
  contentType : String
  retryCount : Nat
  maxRetries : Nat
  lastError : String
  createdAt : Nat
  updatedAt : Nat
  nextRetryAt : Nat
deriving Repr, DecidableEq

/-- Row of the consumer-side `inbox` table
(`consumer/internal/service/models/inbox.InboxMessage`); compared to the
outbox it adds the unique `messageID` idempotency key and the broker
`deliveryTag`. -/
structure InboxMessage where
  id : Int
  messageID : String
  queueName : String
  routingKey : String
  payload : List Nat
  contentType : String
  retryCount : Nat
  maxRetries : Nat
  lastError : String
  createdAt : Nat
  updatedAt : Nat
  nextRetryAt : Nat
  deliveryTag : Nat
deriving Repr, DecidableEq

/-! ### Pending-row selection (`GetPendingMessages`)

`OutboxRepository.GetPendingMessages` and `InboxRepository.GetPendingMessages`
issue the same query shape:
`WHERE next_retry_at <= now AND retry_count < max_retries
 ORDER BY next_retry_at ASC LIMIT l`. -/

/-- The `WHERE` clause of `GetPendingMessages`:
`next_retry_at <= now AND retry_count < max_retries`. -/
def OutboxMessage.due (now : Nat) (m : OutboxMessage) : Bool :=
  decide (m.nextRetryAt ≤ now) && decide (m.retryCount < m.maxRetries)

/-- The `WHERE` clause of the inbox variant of `GetPendingMessages`. -/
def InboxMessage.due (now : Nat) (m : InboxMessage) : Bool :=
  decide (m.nextRetryAt ≤ now) && decide (m.retryCount < m.maxRetries)

/-- The `ORDER BY next_retry_at ASC` comparison for outbox rows. -/
def outboxLE (a b : OutboxMessage) : Prop := a.nextRetryAt ≤ b.nextRetryAt

/-- The `ORDER BY next_retry_at ASC` comparison for inbox rows. -/
def inboxLE (a b : InboxMessage) : Prop := a.nextRetryAt ≤ b.nextRetryAt

instance : DecidableRel outboxLE := fun a b => Nat.decLe a.nextRetryAt b.nextRetryAt

instance : DecidableRel inboxLE := fun a b => Nat.decLe a.nextRetryAt b.nextRetryAt

instance : IsTotal OutboxMessage outboxLE :=
  ⟨fun a b => Nat.le_total a.nextRetryAt b.nextRetryAt⟩

instance : IsTrans OutboxMessage outboxLE :=
  ⟨fun _ _ _ h1 h2 => Nat.le_trans h1 h2⟩

instance : IsTotal InboxMessage inboxLE :=
  ⟨fun a b => Nat.le_total a.nextRetryAt b.nextRetryAt⟩

instance : IsTrans InboxMessage inboxLE :=
  ⟨fun _ _ _ h1 h2 => Nat.le_trans h1 h2⟩

/-- Embeds `OutboxRepository.GetPendingMessages` (part_010, lines 69-96):
select the rows satisfying the due predicate, ordered by `next_retry_at`
ascending, limited to `limit` rows. -/
def outboxGetPendingMessages (store : List OutboxMessage) (now limit : Nat) :
    List OutboxMessage :=
  ((store.filter (OutboxMessage.due now)).insertionSort outboxLE).take limit

/-- Embeds `InboxRepository.GetPendingMessages` (part_003, lines 137-162):
same query shape as the outbox variant, against the `inbox` table. -/
def inboxGetPendingMessages (store : List InboxMessage) (now limit : Nat) :
    List InboxMessage :=
  ((store.filter (InboxMessage.due now)).insertionSort inboxLE).take limit

/-- Embeds `OutboxRepository.Delete`: `DELETE FROM outbox WHERE id = ?`. -/
def outboxDelete (store : List OutboxMessage) (id : Int) : List OutboxMessage :=
  store.filter (fun m => m.id ≠ id)

/-- Embeds `InboxRepository.Delete`: `DELETE FROM inbox WHERE id = ?`. -/
def inboxDelete (store : List InboxMessage) (id : Int) : List InboxMessage :=
  store.filter (fun m => m.id ≠ id)

/-- Embeds `OutboxRepository.UpdateRetry`: `UPDATE outbox SET retry_count,
last_error, next_retry_at, updated_at WHERE id = ?`; `tNow` is the
`time.Now()` read for `updated_at`. -/
def outboxUpdateRetry (store : List OutboxMessage) (id : Int)
    (retryCount : Nat) (lastError : String) (nextRetryAt tNow : Nat) :
    List OutboxMessage :=
  store.map fun m =>
    if m.id = id then
      { m with retryCount := retryCount, lastError := lastError,
               nextRetryAt := nextRetryAt, updatedAt := tNow }
    else m

/-- Embeds `InboxRepository.UpdateRetry`, the inbox twin of
`outboxUpdateRetry`. -/
def inboxUpdateRetry (store : List InboxMessage) (id : Int)
    (retryCount : Nat) (lastError : String) (nextRetryAt tNow : Nat) :
    List InboxMessage :=
  store.map fun m =>
    if m.id = id then
      { m with retryCount := retryCount, lastError := lastError,
               nextRetryAt := nextRetryAt, updatedAt := tNow }
    else m

/-! ### SHA-256 (`crypto/sha256`, FIPS 180-4)

`Consumer.generateMessageID` hashes the raw payload with the Go standard
library's `sha256.Sum256` and hex-encodes the digest.  The standard
algorithm is embedded here over byte lists, with 32-bit words as `Nat`
reduced modulo `2 ^ 32`. -/

/-- Truncation to a 32-bit word. -/
def w32 (x : Nat) : Nat := x % 4294967296

/-- Right rotation of a 32-bit word by `n` bits. -/
def rotr32 (n x : Nat) : Nat := w32 ((x >>> n) ||| (x <<< (32 - n)))

/-- SHA-256 choice function. -/
def sha256Ch (x y z : Nat) : Nat := (x &&& y) ^^^ ((x ^^^ 4294967295) &&& z)

/-- SHA-256 majority function. -/
def sha256Maj (x y z : Nat) : Nat := (x &&& y) ^^^ (x &&& z) ^^^ (y &&& z)

/-- SHA-256 big sigma 0. -/
def bigSigma0 (x : Nat) : Nat := rotr32 2 x ^^^ rotr32 13 x ^^^ rotr32 22 x

/-- SHA-256 big sigma 1. -/
def bigSigma1 (x : Nat) : Nat := rotr32 6 x ^^^ rotr32 11 x ^^^ rotr32 25 x

/-- SHA-256 small sigma 0. -/
def smallSigma0 (x : Nat) : Nat := rotr32 7 x ^^^ rotr32 18 x ^^^ (x >>> 3)

/-- SHA-256 small sigma 1. -/
def smallSigma1 (x : Nat) : Nat := rotr32 17 x ^^^ rotr32 19 x ^^^ (x >>> 10)

/-- The 64 SHA-256 round constants (decimal, per FIPS 180-4). -/
def sha256K : List Nat :=
  [1116352408, 1899447441, 3049323471, 3921009573, 961987163,
   1508970993, 2453635748, 2870763221, 3624381080, 310598401,
   607225278, 1426881987, 1925078388, 2162078206, 2614888103,
   3248222580, 3835390401, 4022224774, 264347078, 604807628,
   770255983, 1249150122, 1555081692, 1996064986, 2554220882,
   2821834349, 2952996808, 3210313671, 3336571891, 3584528711,
   113926993, 338241895, 666307205, 773529912, 1294757372,
   1396182291, 1695183700, 1986661051, 2177026350, 2456956037,
   2730485921, 2820302411, 3259730800, 3345764771, 3516065817,
   3600352804, 4094571909, 275423344, 430227734, 506948616,
   659060556, 883997877, 958139571, 1322822218, 1537002063,
   1747873779, 1955562222, 2024104815, 2227730452, 2361852424,
   2428436474, 2756734187, 3204031479, 3329325298]

/-- The SHA-256 initial hash state (decimal, per FIPS 180-4). -/
def sha256H0 : List Nat :=
  [1779033703, 3144134277, 1013904242, 2773480762, 1359893119,
   2600822924, 528734635, 1541459225]

/-- Big-endian serialisation of `x` into `k` bytes. -/
def toBytesBE : Nat → Nat → List Nat
  | 0, _ => []
  | k + 1, x => toBytesBE k (x >>> 8) ++ [x % 256]

/-- SHA-256 message padding: append the `0x80` marker, zero bytes up to a
56-mod-64 boundary, then the message bit length as 8 big-endian bytes. -/
def sha256Pad (msg : List Nat) : List Nat :=
  let l := msg.length
  msg ++ [128] ++ List.replicate ((64 - ((l + 9) % 64)) % 64) 0 ++
    toBytesBE 8 (8 * l)

/-- Group bytes into big-endian 32-bit words. -/
def bytesToWords : List Nat → List Nat
  | a :: b :: c :: d :: rest =>
      (a * 16777216 + b * 65536 + c * 256 + d) :: bytesToWords rest
  | _ => []

/-- Split a word list into 16-word blocks, with explicit fuel so that the
definition is structurally recursive (each step consumes at least one
word, so `ws.length` fuel always suffices). -/
def wordsToBlocksAux : Nat → List Nat → List (List Nat)
  | 0, _ => []
  | _, [] => []
  | fuel + 1, w :: ws =>
      ((w :: ws).take 16) :: wordsToBlocksAux fuel ((w :: ws).drop 16)

/-- Split a word list into 16-word blocks. -/
def wordsToBlocks (ws : List Nat) : List (List Nat) :=
  wordsToBlocksAux ws.length ws

/-- Extend a 16-word block by `k` further message-schedule words. -/
def sha256Extend : List Nat → Nat → List Nat
  | ws, 0 => ws
  | ws, k + 1 =>
    let t := ws.length
    sha256Extend
      (ws ++ [w32 (smallSigma1 (ws.getD (t - 2) 0) + ws.getD (t - 7) 0 +
        smallSigma0 (ws.getD (t - 15) 0) + ws.getD (t - 16) 0)]) k

/-- One SHA-256 compression round; the state is the word list
`[a, b, c, d, e, f, g, h]` and `kw` pairs a round constant with a
schedule word. -/
def sha256Round (st : List Nat) (kw : Nat × Nat) : List Nat :=
  match st with
  | [a, b, c, d, e, f, g, h] =>
    let t1 := w32 (h + bigSigma1 e + sha256Ch e f g + kw.1 + kw.2)
    let t2 := w32 (bigSigma0 a + sha256Maj a b c)
    [w32 (t1 + t2), a, b, c, w32 (d + t1), e, f, g]
  | other => other

/-- Compress one 16-word block into the running hash state. -/
def sha256Compress (h : List Nat) (block : List Nat) : List Nat :=
  let ws := sha256Extend block 48
  let st := (sha256K.zip ws).foldl sha256Round h
  (h.zip st).map fun p => w32 (p.1 + p.2)

/-- SHA-256 digest (32 bytes) of a byte-list message. -/
def sha256 (msg : List Nat) : List Nat :=
  let blocks := wordsToBlocks (bytesToWords (sha256Pad msg))
  ((blocks.foldl sha256Compress sha256H0).map (toBytesBE 4)).flatten

/-- Lower-case hex digit for a value below 16. -/
def hexDigit (n : Nat) : Char :=
  if n < 10 then Char.ofNat (48 + n) else Char.ofNat (87 + n)

/-- Lower-case hex encoding of a byte list (`hex.EncodeToString`). -/
def bytesToHex (bs : List Nat) : String :=
  String.mk ((bs.map fun b => [hexDigit (b / 16), hexDigit (b % 16)]).flatten)

/-- Embeds `Consumer.generateMessageID` (part_004, lines 207-211):
the hex-encoded SHA-256 digest of the raw payload. -/
def generateMessageID (payload : List Nat) : String :=
  bytesToHex (sha256 payload)

/-! ### Inbox table insert with the unique `message_id` constraint

Migration `20251204173127_create_audit_log_order_table.sql` declares
`message_id text not null unique` on the `inbox` table; ids come from a
`bigserial` column. -/

/-- Next `bigserial` value for the inbox table. -/
def inboxNextId (store : List InboxMessage) : Int :=
  store.foldl (fun acc m => max acc m.id) 0 + 1

/-- Embeds `InboxRepository.Insert` (part_003, lines 92-134) together with
the table's unique `message_id` constraint: a duplicate `message_id` makes
the SQL statement fail, which the repository surfaces as a wrapped error;
otherwise the row is appended with a fresh serial id. -/
def inboxInsert (store : List InboxMessage) (msg : InboxMessage) :
    Except String (List InboxMessage) :=
  if store.any (fun r => r.messageID == msg.messageID) then
    Except.error
      "failed to insert inbox message: duplicate key value violates unique constraint"
  else
    Except.ok (store ++ [{ msg with id := inboxNextId store }])

/-! ### MessageIntake: `Consumer.processMessage` (part_004, lines 133-205)

External effects are oracles: `unmarshal` is the `json.Unmarshal` outcome
for a payload, `processAuditLog` the per-audit-log result of
`service.ProcessAuditLog` (`none` = success), `insertResult` the outcome
of `inboxRepo.Insert` (`none` = success).  The broker `Ack`/`Nack` calls
are recorded as the action the code issues; their own network failure
only affects logging and the return value and is not modelled. -/

/-- A RabbitMQ delivery as seen by `processMessage`. -/
structure Delivery where
  body : List Nat
  routingKey : String
  contentType : String
  deliveryTag : Nat
deriving Repr, DecidableEq

/-- The broker call a message handler issues for a delivery:
`Ack(false)`, `Nack(false, true)` (requeue) or `Nack(false, false)`
(drop). -/
inductive BrokerAction where
  | ack
  | nackRequeue
  | nackDrop
deriving Repr, DecidableEq

/-- Oracle environment for one `processMessage` call. -/
structure ConsumerEnv where
  unmarshal : List Nat → Except String COrder
  processAuditLog : AuditLogOrder → Option String
  insertResult : InboxMessage → Option String
  now : Nat

/-- Consumer construction constants: the declared queue name and
`inbox.max_retries` (default 5). -/
structure ConsumerCfg where
  queueName : String
  maxRetries : Nat

/-- Observable outcome of one `processMessage` call. -/
structure IntakeResult where
  action : BrokerAction
  insertAttempted : Bool
  insertedRow : Option InboxMessage
  returnedError : Option String
deriving Repr

/-- Embeds `convertOrderToAuditLogs` (part_004, lines 214-230): one audit
log row per order item, status `"created"`. -/
def convertOrderToAuditLogs (now : Nat) (ord : COrder) : List AuditLogOrder :=
  ord.orderItems.map fun item =>
    { orderId := ord.id, orderItemId := item.id, customerId := ord.customerId,
      orderStatus := "created", createdAt := now, updatedAt := now }

/-- The processing loop of `processMessage`: try each audit log in order,
stopping at the first failure (the loop breaks on the first error). -/
def firstProcessingError (f : AuditLogOrder → Option String) :
    List AuditLogOrder → Option String
  | [] => none
  | a :: rest =>
    match f a with
    | some e => some e
    | none => firstProcessingError f rest

/-- The `InboxMessage` literal built inside `processMessage` when audit
processing failed with `perr`: payload hash as `message_id`, raw payload,
routing metadata (queue and routing key), the broker `delivery_tag`,
retry counters and a first `next_retry_at` 30 seconds out. -/
def intakeInboxRow (cfg : ConsumerCfg) (env : ConsumerEnv) (msg : Delivery)
    (perr : String) : InboxMessage :=
  { id := 0, messageID := generateMessageID msg.body,
    queueName := cfg.queueName, routingKey := msg.routingKey,
    payload := msg.body, contentType := msg.contentType, retryCount := 0,
    maxRetries := cfg.maxRetries, lastError := perr,
    createdAt := env.now, updatedAt := env.now,
    nextRetryAt := env.now + 30, deliveryTag := msg.deliveryTag }

/-- Embeds `Consumer.processMessage` (part_004, lines 133-205): unmarshal
the payload; on failure nack without requeue and return the error; on
success process the derived audit logs; if one fails, build an
`InboxMessage` keyed by the payload hash and insert it — ack on insert
success, nack-with-requeue and return the error on insert failure; if
all audit logs succeed, ack. -/
def processMessage (cfg : ConsumerCfg) (env : ConsumerEnv) (msg : Delivery) :
    IntakeResult :=
  match env.unmarshal msg.body with
  | Except.error e =>
    { action := BrokerAction.nackDrop, insertAttempted := false,
      insertedRow := none, returnedError := some e }
  | Except.ok ord =>
    let auditLogs := convertOrderToAuditLogs env.now ord
    match firstProcessingError env.processAuditLog auditLogs with
    | none =>
      { action := BrokerAction.ack, insertAttempted := false,
        insertedRow := none, returnedError := none }
    | some perr =>
      let inboxMsg := intakeInboxRow cfg env msg perr
      match env.insertResult inboxMsg with
      | some ie =>
        { action := BrokerAction.nackRequeue, insertAttempted := true,
          insertedRow := none,
          returnedError := some ("failed to save to inbox: " ++ ie) }
      | none =>
        { action := BrokerAction.ack, insertAttempted := true,
          insertedRow := some inboxMsg, returnedError := none }

/-! ### InboxRelay: `Worker.processMessages` of the inbox worker
(otel.go, second unit, lines 112-196) -/

/-- Oracle environment for one inbox poll cycle: `tPoll` is the
`time.Now()` of the selection query, `tFail` the `time.Now()` read when
handling a failure (the poll happens first, so `tPoll ≤ tFail` in every
real run). -/
structure InboxWorkerEnv where
  unmarshal : List Nat → Except String COrder
  processAuditLog : AuditLogOrder → Option String
  tPoll : Nat
  tFail : Nat
  batchSize : Nat

/-- Embeds the per-row body of the inbox worker loop: on unmarshal
failure, delete the row when the incremented retry count has reached
`max_retries`, otherwise update it with exponential backoff
`2 ^ newRetryCount * 30` seconds; on a processing failure update with the
same backoff; on success delete the row. -/
def processOneInbox (env : InboxWorkerEnv) (store : List InboxMessage)
    (m : InboxMessage) : List InboxMessage :=
  match env.unmarshal m.payload with
  | Except.error e =>
    let newRetryCount := m.retryCount + 1
    if m.maxRetries ≤ newRetryCount then
      inboxDelete store m.id
    else
      inboxUpdateRetry store m.id newRetryCount e
        (env.tFail + 2 ^ newRetryCount * 30) env.tFail
  | Except.ok ord =>
    match firstProcessingError env.processAuditLog
        (convertOrderToAuditLogs env.tFail ord) with
    | some perr =>
      let newRetryCount := m.retryCount + 1
      inboxUpdateRetry store m.id newRetryCount perr
        (env.tFail + 2 ^ newRetryCount * 30) env.tFail
    | none => inboxDelete store m.id

/-- Embeds one poll cycle of the inbox worker: select the due batch, then
process the selected rows sequentially against the live store. -/
def processInboxMessages (env : InboxWorkerEnv) (store : List InboxMessage) :
    List InboxMessage :=
  (inboxGetPendingMessages store env.tPoll env.batchSize).foldl
    (processOneInbox env) store

/-! ### OutboxRelay: `Worker.processMessages` of the outbox worker
(`order-svc/internal/worker/outbox/worker.go`, lines 84-138) -/

/-- Oracle environment for one outbox poll cycle; `publish` is the
outcome of the broker publish for a row (`none` = success). -/
structure OutboxWorkerEnv where
  publish : OutboxMessage → Option String
  tPoll : Nat
  tFail : Nat
  batchSize : Nat

/-- Embeds the per-row body of the outbox worker loop (lines 98-137):
on publish failure update the row with `retry_count + 1` and backoff
`2 ^ newRetryCount * 30` seconds from the failure time; on success delete
the row.  No branch deletes a row for exhausting its retries. -/
def processOneOutbox (env : OutboxWorkerEnv) (store : List OutboxMessage)
    (m : OutboxMessage) : List OutboxMessage :=
  match env.publish m with
  | some e =>
    let newRetryCount := m.retryCount + 1
    outboxUpdateRetry store m.id newRetryCount e
      (env.tFail + 2 ^ newRetryCount * 30) env.tFail
  | none => outboxDelete store m.id

/-- Embeds one poll cycle of the outbox worker. -/
def processOutboxMessages (env : OutboxWorkerEnv) (store : List OutboxMessage) :
    List OutboxMessage :=
  (outboxGetPendingMessages store env.tPoll env.batchSize).foldl
    (processOneOutbox env) store

/-! ### Producer side: `OrderService.BatchInsert` and
`AuditRabbitMQRepository.LogBatchInsert`

The unit of work (`uow.go`) rebinds only the order and order-item
repositories to the opened transaction; `OutboxRepository.Insert`
(part_010) executes through `r.client.DB()`, the shared pool, so outbox
writes are autocommitted independently of the transaction.  The model
therefore keeps committed state (`DBState`) separate from the pending
transaction rows, and lets the outbox insert write committed state
directly. -/

/-- Producer-side `orderitem.OrderItem` model. -/
structure POrderItem where
  id : Int
  orderId : Int
  productId : Int
  quantity : Int
  productTitle : String
  productUrl : String
  priceCents : Int
  priceCurrency : String
  createdAt : Nat
  updatedAt : Nat
deriving Repr, DecidableEq

/-- Producer-side `order.Order` model. -/
structure POrder where
  id : Int
  customerId : Int
  deliveryAddress : String
  totalPriceCents : Int
  totalPriceCurrency : String
  createdAt : Nat
  updatedAt : Nat
  orderItems : List POrderItem
deriving Repr, DecidableEq

/-- Committed database state of the producer service. -/
structure DBState where
  orders : List POrder
  orderItems : List POrderItem
  outbox : List OutboxMessage
deriving Repr, DecidableEq

/-- Queue name hardcoded in `NewAuditRabbitMQRepository`. -/
def auditQueueName : String := "oms.order.created"

/-- `maxRetries` hardcoded in `NewAuditRabbitMQRepository`. -/
def auditMaxRetries : Nat := 5

/-- `retryInterval` (30 seconds) hardcoded in
`NewAuditRabbitMQRepository`. -/
def auditRetryInterval : Nat := 30

/-- Oracle environment for one `LogBatchInsert` call: `marshal` is the
`json.Marshal` outcome per order, `publish` the synchronous broker
publish outcome (`none` = success), `outboxInsertErr` the SQL outcome of
`outboxRepo.Insert` (`none` = success); `now` is the single `time.Now()`
read at the top of `LogBatchInsert`. -/
structure AuditEnv where
  marshal : POrder → Except String (List Nat)
  publish : POrder → Option String
  outboxInsertErr : OutboxMessage → Option String
  now : Nat

/-- Next `bigserial` value for the outbox table. -/
def outboxNextId (store : List OutboxMessage) : Int :=
  store.foldl (fun acc m => max acc m.id) 0 + 1

/-- The successful effect of `OutboxRepository.Insert` on the committed
outbox table (the write goes through the pool and autocommits). -/
def outboxPoolInsert (store : List OutboxMessage) (msg : OutboxMessage) :
    List OutboxMessage :=
  store ++ [{ msg with id := outboxNextId store }]

/-- The outbox row `LogBatchInsert` builds for an order whose publish
failed with error `perr` and whose marshalled payload is `payload`. -/
def mkOutboxMessage (now : Nat) (payload : List Nat) (perr : String) :
    OutboxMessage :=
  { id := 0, queueName := auditQueueName, exchangeName := "",
    routingKey := auditQueueName, payload := payload,
    contentType := "application/json", retryCount := 0,
    maxRetries := auditMaxRetries, lastError := perr,
    createdAt := now, updatedAt := now,
    nextRetryAt := now + auditRetryInterval }

/-- Embeds `AuditRabbitMQRepository.LogBatchInsert` (part_011, lines
54-114): for each order, marshal it (error aborts), try the synchronous
publish; on publish failure insert an outbox row through the pool — if
that insert also fails, abort with an error; otherwise continue.
Returns the updated committed outbox table and the call result. -/
def logBatchInsert (env : AuditEnv) (outboxStore : List OutboxMessage) :
    List POrder → List OutboxMessage × Except String Unit
  | [] => (outboxStore, Except.ok ())
  | ord :: rest =>
    match env.marshal ord with
    | Except.error e =>
      (outboxStore, Except.error ("failed to marshal order: " ++ e))
    | Except.ok orderData =>
      match env.publish ord with
      | none => logBatchInsert env outboxStore rest
      | some perr =>
        let msg := mkOutboxMessage env.now orderData perr
        match env.outboxInsertErr msg with
        | some ie =>
          (outboxStore,
           Except.error ("failed to insert message to outbox: " ++ ie))
        | none => logBatchInsert env (outboxPoolInsert outboxStore msg) rest

/-- Oracle environment for one `BatchInsert` call: outcomes of `Begin`,
the two bulk inserts inside the transaction, the audit step, `Rollback`
and `Commit`; `now` is the `time.Now()` read before the inserts. -/
structure SvcEnv where
  beginErr : Option String
  orderBulkInsert : List POrder → Except String (List POrder)
  itemBulkInsert : List POrderItem → Except String (List POrderItem)
  audit : AuditEnv
  commitErr : Option String
  now : Nat

/-- Observable outcome of one `BatchInsert` call: the returned value, the
transaction calls that were made, and the committed database state
afterwards (an abandoned transaction leaves committed state untouched). -/
structure BatchResult where
  result : Except String (List POrder)
  rollbackCalled : Bool
  commitCalled : Bool
  db : DBState
deriving Repr

/-- The timestamp-stamping loop at the top of `BatchInsert` (lines
85-88). -/
def setOrderTimestamps (now : Nat) (orders : List POrder) : List POrder :=
  orders.map fun o => { o with createdAt := now, updatedAt := now }

/-- The item-collection loop of `BatchInsert` (lines 95-101): flatten all
items, stamping each with its order id. -/
def collectOrderItems (orders : List POrder) : List POrderItem :=
  orders.foldl
    (fun acc o => acc ++ o.orderItems.map fun it => { it with orderId := o.id })
    []

/-- The item re-slicing loop of `BatchInsert` (lines 107-109):
`orders[i].OrderItems = orderItems[i*k : (i+1)*k]` with
`k = len(orders[i].OrderItems)`. -/
def reassignItems (orders : List POrder) (items : List POrderItem) :
    List POrder :=
  orders.enum.map fun p =>
    let k := p.2.orderItems.length
    { p.2 with orderItems := (items.drop (p.1 * k)).take k }

/-- Embeds `OrderService.BatchInsert`
(`ordersvc.go`, lines 70-129): begin a transaction; bulk-insert orders
then items (an error on either path returns at once, with neither
`Rollback` nor `Commit` called); run `LogBatchInsert`; on its failure
call `Rollback` and return the error; otherwise call `Commit` and return
the orders. -/
def batchInsert (env : SvcEnv) (db : DBState) (orders : List POrder) :
    BatchResult :=
  match env.beginErr with
  | some e =>
    { result := Except.error e, rollbackCalled := false,
      commitCalled := false, db := db }
  | none =>
    let stamped := setOrderTimestamps env.now orders
    match env.orderBulkInsert stamped with
    | Except.error e =>
      { result := Except.error e, rollbackCalled := false,
        commitCalled := false, db := db }
    | Except.ok orders1 =>
      match env.itemBulkInsert (collectOrderItems orders1) with
      | Except.error e =>
        { result := Except.error e, rollbackCalled := false,
          commitCalled := false, db := db }
      | Except.ok items1 =>
        let orders2 := reassignItems orders1 items1
        match logBatchInsert env.audit db.outbox orders2 with
        | (outbox1, Except.error e) =>
          { result := Except.error e, rollbackCalled := true,
            commitCalled := false, db := { db with outbox := outbox1 } }
        | (outbox1, Except.ok _) =>
          match env.commitErr with
          | some e =>
            { result := Except.error e, rollbackCalled := false,
              commitCalled := true, db := { db with outbox := outbox1 } }
          | none =>
            { result := Except.ok orders2, rollbackCalled := false,
              commitCalled := true,
              db := { orders := db.orders ++ orders2,
                      orderItems := db.orderItems ++ items1,
                      outbox := outbox1 } }

/-- An order is handled by the audit step when its publish succeeded or,
the publish having failed, the outbox insert for its event succeeded
(marshalling must have succeeded in either case). -/
def orderHandled (env : AuditEnv) (ord : POrder) : Prop :=
  ∃ data, env.marshal ord = Except.ok data ∧
    (env.publish ord = none ∨
      ∃ perr, env.publish ord = some perr ∧
        env.outboxInsertErr (mkOutboxMessage env.now data perr) = none)

/-! ### Concrete scenario data for closed theorems and witnesses -/

/-- A small parsed consumer order with one line item. -/
def sampleOrder : COrder :=
  { id := 1, customerId := 2, deliveryAddress := "addr",
    orderItems := [{ id := 10, orderId := 1, productId := 3, quantity := 1,
                     createdAt := 0, updatedAt := 0 }] }

/-- The consumer configuration used in concrete scenarios. -/
def sampleCfg : ConsumerCfg := { queueName := "orders", maxRetries := 5 }

/-- A concrete broker delivery. -/
def sampleDelivery : Delivery :=
  { body := [1, 2, 3], routingKey := "orders",
    contentType := "application/json", deliveryTag := 42 }

/-- Environment where the payload parses, audit processing fails and the
inbox insert fails. -/
def envInsertFails : ConsumerEnv :=
  { unmarshal := fun _ => Except.ok sampleOrder,
    processAuditLog := fun _ => some "audit store unavailable",
    insertResult := fun _ => some "inbox store unavailable",
    now := 100 }

/-- Environment where the payload parses, audit processing fails and the
inbox insert succeeds. -/
def envInsertOk : ConsumerEnv :=
  { unmarshal := fun _ => Except.ok sampleOrder,
    processAuditLog := fun _ => some "audit store unavailable",
    insertResult := fun _ => none,
    now := 100 }

/-- Environment where the payload does not deserialize. -/
def envBadPayload : ConsumerEnv :=
  { unmarshal := fun _ => Except.error "invalid character",
    processAuditLog := fun _ => none,
    insertResult := fun _ => none,
    now := 0 }

/-- A due outbox row with `next_retry_at = 1`. -/
def obRow1 : OutboxMessage :=
  { id := 1, queueName := "oms.order.created", exchangeName := "",
    routingKey := "oms.order.created", payload := [1],
    contentType := "application/json", retryCount := 0, maxRetries := 5,
    lastError := "", createdAt := 0, updatedAt := 0, nextRetryAt := 1 }

/-- A due outbox row with `next_retry_at = 2`. -/
def obRow2 : OutboxMessage := { obRow1 with id := 2, nextRetryAt := 2 }

/-- A due outbox row with `next_retry_at = 3`. -/
def obRow3 : OutboxMessage := { obRow1 with id := 3, nextRetryAt := 3 }

/-- An outbox table holding the three due rows, deliberately out of
order. -/
def obStore3 : List OutboxMessage := [obRow3, obRow1, obRow2]

/-- An outbox row one failure away from exhausting its retries. -/
def obRowAtMax : OutboxMessage :=
  { obRow1 with retryCount := 4, maxRetries := 5, nextRetryAt := 0 }

/-- Outbox worker environment whose publish always fails. -/
def obEnvFail : OutboxWorkerEnv :=
  { publish := fun _ => some "broker down", tPoll := 10, tFail := 10,
    batchSize := 100 }

/-- An outbox row with `retry_count = 2`, due at time 0. -/
def obRowRetry2 : OutboxMessage :=
  { obRow1 with retryCount := 2, maxRetries := 5, nextRetryAt := 0 }

/-- Outbox worker environment for the backoff scenario: selection at
time 5, failure handled at time 9. -/
def obEnvBackoff : OutboxWorkerEnv :=
  { publish := fun _ => some "connection refused", tPoll := 5, tFail := 9,
    batchSize := 100 }

/-- The row the outbox worker writes back for `obRowRetry2` in the
`obEnvBackoff` scenario. -/
def obRowRetry2Updated : OutboxMessage :=
  { obRowRetry2 with
    retryCount := 3, lastError := "connection refused",
    nextRetryAt := 9 + 2 ^ 3 * 30, updatedAt := 9 }

/-- A due inbox row with `retry_count = 2`. -/
def ibRowRetry2 : InboxMessage :=
  { id := 1, messageID := "m", queueName := "orders", routingKey := "orders",
    payload := [1], contentType := "application/json", retryCount := 2,
    maxRetries := 5, lastError := "", createdAt := 0, updatedAt := 0,
    nextRetryAt := 0, deliveryTag := 1 }

/-- Inbox worker environment where the payload parses but audit
processing fails; selection at time 5, failure handled at time 9. -/
def ibEnvProcFail : InboxWorkerEnv :=
  { unmarshal := fun _ => Except.ok sampleOrder,
    processAuditLog := fun _ => some "audit store unavailable",
    tPoll := 5, tFail := 9, batchSize := 100 }

/-- An inbox row whose next failure is its `max_retries`-th. -/
def ibRowAtMax : InboxMessage := { ibRowRetry2 with retryCount := 4 }

/-- Inbox worker environment whose payloads fail to unmarshal. -/
def ibEnvBadPayload : InboxWorkerEnv :=
  { unmarshal := fun _ => Except.error "unexpected end of JSON input",
    processAuditLog := fun _ => none,
    tPoll := 10, tFail := 10, batchSize := 100 }

/-- An inbox row keyed by the content hash of payload `[5]`. -/
def ibSeeded : InboxMessage :=
  { ibRowRetry2 with messageID := generateMessageID [5] }

/-- A producer order with id 1 and no line items. -/
def pOrder1 : POrder :=
  { id := 1, customerId := 7, deliveryAddress := "a", totalPriceCents := 100,
    totalPriceCurrency := "USD", createdAt := 0, updatedAt := 0,
    orderItems := [] }

/-- A producer order with id 2 and no line items. -/
def pOrder2 : POrder := { pOrder1 with id := 2 }

/-- Audit environment where every publish fails, the outbox insert
succeeds for order 1's payload and fails for any other payload. -/
def auditEnvPartial : AuditEnv :=
  { marshal := fun o => Except.ok [o.id.toNat],
    publish := fun _ => some "connection refused",
    outboxInsertErr := fun m =>
      if m.payload = [1] then none else some "deadlock detected",
    now := 50 }

/-- Service environment around `auditEnvPartial` where begin, the bulk
inserts and commit all succeed. -/
def svcEnvPartial : SvcEnv :=
  { beginErr := none,
    orderBulkInsert := fun os => Except.ok os,
    itemBulkInsert := fun its => Except.ok its,
    audit := auditEnvPartial,
    commitErr := none,
    now := 50 }

/-- Service environment whose order bulk insert fails. -/
def svcEnvOrderInsFails : SvcEnv :=
  { svcEnvPartial with
    orderBulkInsert := fun _ => Except.error "orders bulk insert failed" }

/-- The empty committed database state. -/
def emptyDB : DBState := { orders := [], orderItems := [], outbox := [] }

deriving instance DecidableEq for Except

/-! ## Validation of the SHA-256 embedding against FIPS 180-4 test
vectors -/

example : sha256 [97, 98, 99] =
    [186, 120, 22, 191, 143, 1, 207, 234, 65, 65,
     64, 222, 93, 174, 34, 35, 176, 3, 97, 163,
     150, 23, 122, 156, 180, 16, 255, 97, 242, 0,
     21, 173] := by decide

example : generateMessageID [97, 98, 99] =
    "ba7816bf8f01cfea414140de5dae2223b00361a396177a9cb410ff61f20015ad" := by
  decide

/-! ## Helper lemmas about pending-row selection -/

/-- Every row returned by the outbox pending selection is a store row
satisfying the SQL filter `next_retry_at <= now AND
retry_count < max_retries`. -/
theorem outbox_selected_spec (store : List OutboxMessage) (now limit : Nat)
    (m : OutboxMessage) (h : m ∈ outboxGetPendingMessages store now limit) :
    m ∈ store ∧ m.nextRetryAt ≤ now ∧ m.retryCount < m.maxRetries := by
  unfold outboxGetPendingMessages at h
  have h1 := List.take_subset limit _ h
  have h2 :=
    (List.perm_insertionSort outboxLE (store.filter (OutboxMessage.due now))).subset h1
  have h3 := List.mem_filter.mp h2
  have h4 := h3.2
  simp only [OutboxMessage.due, Bool.and_eq_true, decide_eq_true_eq] at h4
  exact ⟨h3.1, h4.1, h4.2⟩

/-- Inbox twin of `outbox_selected_spec`. -/
theorem inbox_selected_spec (store : List InboxMessage) (now limit : Nat)
    (m : InboxMessage) (h : m ∈ inboxGetPendingMessages store now limit) :
    m ∈ store ∧ m.nextRetryAt ≤ now ∧ m.retryCount < m.maxRetries := by
  unfold inboxGetPendingMessages at h
  have h1 := List.take_subset limit _ h
  have h2 :=
    (List.perm_insertionSort inboxLE (store.filter (InboxMessage.due now))).subset h1
  have h3 := List.mem_filter.mp h2
  have h4 := h3.2
  simp only [InboxMessage.due, Bool.and_eq_true, decide_eq_true_eq] at h4
  exact ⟨h3.1, h4.1, h4.2⟩

/-- The outbox pending selection is sorted by `next_retry_at`
ascending. -/
theorem outbox_selected_sorted (store : List OutboxMessage) (now limit : Nat) :
    List.Pairwise outboxLE (outboxGetPendingMessages store now limit) := by
  unfold outboxGetPendingMessages
  exact List.Pairwise.sublist (List.take_sublist limit _)
    (List.sorted_insertionSort outboxLE _)

/-- The inbox pending selection is sorted by `next_retry_at`
ascending. -/
theorem inbox_selected_sorted (store : List InboxMessage) (now limit : Nat) :
    List.Pairwise inboxLE (inboxGetPendingMessages store now limit) := by
  unfold inboxGetPendingMessages
  exact List.Pairwise.sublist (List.take_sublist limit _)
    (List.sorted_insertionSort inboxLE _)

/-! ## C7 -/

/-- C7: every relay poll selects at most `batchSize` rows satisfying
`next_retry_at <= now` and `retry_count < max_retries`, ordered by
`next_retry_at` ascending (both for the outbox and the inbox store); in
particular, for three due rows at times 1 < 2 < 3 and batch size 2, the
poll selects exactly the rows at times 1 and 2 and leaves the third. -/
theorem c7_selection_bound_and_order :
    (∀ (store : List OutboxMessage) (now limit : Nat),
      (outboxGetPendingMessages store now limit).length ≤ limit ∧
      (∀ m ∈ outboxGetPendingMessages store now limit,
        m.nextRetryAt ≤ now ∧ m.retryCount < m.maxRetries) ∧
      List.Pairwise outboxLE (outboxGetPendingMessages store now limit)) ∧
    (∀ (store : List InboxMessage) (now limit : Nat),
      (inboxGetPendingMessages store now limit).length ≤ limit ∧
      (∀ m ∈ inboxGetPendingMessages store now limit,
        m.nextRetryAt ≤ now ∧ m.retryCount < m.maxRetries) ∧
      List.Pairwise inboxLE (inboxGetPendingMessages store now limit)) ∧
    outboxGetPendingMessages obStore3 10 2 = [obRow1, obRow2] := by
  refine ⟨fun store now limit => ⟨?_, ?_, outbox_selected_sorted store now limit⟩,
          fun store now limit => ⟨?_, ?_, inbox_selected_sorted store now limit⟩,
          by decide⟩
  · exact List.length_take_le limit _
  · exact fun m hm => (outbox_selected_spec store now limit m hm).2
  · exact List.length_take_le limit _
  · exact fun m hm => (inbox_selected_spec store now limit m hm).2

/-- Closed instantiation of `c7_selection_bound_and_order` at the
concrete three-row store. -/
theorem c7_selection_witness :
    obRow1 ∈ outboxGetPendingMessages obStore3 10 2 ∧
    (obRow1.nextRetryAt ≤ 10 ∧ obRow1.retryCount < obRow1.maxRetries) :=
  ⟨by decide,
   (c7_selection_bound_and_order.1 obStore3 10 2).2.1 obRow1 (by decide)⟩

/-! ## C4 -/

/-- C4 counterexample: an outbox row whose attempt fails for exactly the
`max_retries`-th time is not deleted — the outbox worker updates it to
`retry_count = max_retries` and it stays in the store, so a row can exist
with `retry_count = max_retries`. -/
theorem c4_counterexample :
    processOutboxMessages obEnvFail [obRowAtMax] =
      [{ obRowAtMax with
         retryCount := 5, lastError := "broker down",
         nextRetryAt := 10 + 2 ^ 5 * 30, updatedAt := 10 }] ∧
    (processOutboxMessages obEnvFail [obRowAtMax]).length = 1 := by
  constructor
  · decide
  · decide

/-- C4 (amended): a failing outbox row at its `max_retries`-th failure is
updated in place to `retry_count = max_retries`, not deleted; it is never
again returned by `GetPendingMessages`, because selection (on both
stores) requires `retry_count < max_retries`; only the inbox
malformed-payload case deletes the row at the threshold. -/
theorem c4_abandonment_amended :
    (∀ (store : List OutboxMessage) (now limit : Nat) (m : OutboxMessage),
      m ∈ outboxGetPendingMessages store now limit →
      m.retryCount < m.maxRetries) ∧
    (∀ (store : List InboxMessage) (now limit : Nat) (m : InboxMessage),
      m ∈ inboxGetPendingMessages store now limit →
      m.retryCount < m.maxRetries) ∧
    processOutboxMessages obEnvFail [obRowAtMax] =
      outboxUpdateRetry [obRowAtMax] 1 5 "broker down" (10 + 2 ^ 5 * 30) 10 ∧
    (∀ now limit,
      outboxGetPendingMessages (processOutboxMessages obEnvFail [obRowAtMax])
        now limit = []) ∧
    (∀ (env : InboxWorkerEnv) (store : List InboxMessage) (m : InboxMessage)
      (e : String),
      env.unmarshal m.payload = Except.error e →
      m.maxRetries ≤ m.retryCount + 1 →
      processOneInbox env store m = inboxDelete store m.id) := by
  refine ⟨?_, ?_, by decide, ?_, ?_⟩
  · exact fun store now limit m hm => (outbox_selected_spec store now limit m hm).2.2
  · exact fun store now limit m hm => (inbox_selected_spec store now limit m hm).2.2
  · intro now limit
    rw [List.eq_nil_iff_forall_not_mem]
    intro m hm
    have h1 := outbox_selected_spec _ now limit m hm
    have hstore : processOutboxMessages obEnvFail [obRowAtMax] =
        [{ obRowAtMax with
           retryCount := 5, lastError := "broker down",
           nextRetryAt := 10 + 2 ^ 5 * 30, updatedAt := 10 }] := by decide
    rw [hstore] at h1
    have hms := h1.1
    rw [List.mem_singleton] at hms
    subst hms
    exact absurd h1.2.2 (by decide)
  · intro env store m e hu hmax
    simp [processOneInbox, hu, hmax]

/-- Closed instantiation of `c4_abandonment_amended`: the malformed inbox
row at the retry threshold is deleted. -/
theorem c4_abandonment_witness :
    ibEnvBadPayload.unmarshal ibRowAtMax.payload =
      Except.error "unexpected end of JSON input" ∧
    ibRowAtMax.maxRetries ≤ ibRowAtMax.retryCount + 1 ∧
    processOneInbox ibEnvBadPayload [ibRowAtMax] ibRowAtMax =
      inboxDelete [ibRowAtMax] ibRowAtMax.id :=
  ⟨rfl, by decide,
   c4_abandonment_amended.2.2.2.2 ibEnvBadPayload [ibRowAtMax] ibRowAtMax
     "unexpected end of JSON input" rfl (by decide)⟩

/-! ## C5 -/

/-- C5: for a due selected row with `retry_count = n` whose attempt
fails, the relay (outbox worker; inbox worker on a processing failure)
updates the row to `retry_count = n + 1`, sets `last_error`, and sets
`next_retry_at` to the failure time plus `2 ^ (n + 1) * 30` seconds,
which strictly exceeds the previous `next_retry_at`. -/
theorem c5_backoff_monotonicity :
    (∀ (env : OutboxWorkerEnv) (store : List OutboxMessage) (limit : Nat)
      (m : OutboxMessage) (e : String),
      m ∈ outboxGetPendingMessages store env.tPoll limit →
      env.publish m = some e →
      env.tPoll ≤ env.tFail →
      ∀ m2 ∈ processOneOutbox env store m, m2.id = m.id →
        m2.retryCount = m.retryCount + 1 ∧ m2.lastError = e ∧
        m2.nextRetryAt = env.tFail + 2 ^ (m.retryCount + 1) * 30 ∧
        m.nextRetryAt < m2.nextRetryAt) ∧
    (∀ (env : InboxWorkerEnv) (store : List InboxMessage) (limit : Nat)
      (m : InboxMessage) (ord : COrder) (e : String),
      m ∈ inboxGetPendingMessages store env.tPoll limit →
      env.unmarshal m.payload = Except.ok ord →
      firstProcessingError env.processAuditLog
        (convertOrderToAuditLogs env.tFail ord) = some e →
      env.tPoll ≤ env.tFail →
      ∀ m2 ∈ processOneInbox env store m, m2.id = m.id →
        m2.retryCount = m.retryCount + 1 ∧ m2.lastError = e ∧
        m2.nextRetryAt = env.tFail + 2 ^ (m.retryCount + 1) * 30 ∧
        m.nextRetryAt < m2.nextRetryAt) := by
  constructor
  · intro env store limit m e hsel hpub ht m2 hm2 hid
    have hdue := (outbox_selected_spec store env.tPoll limit m hsel).2.1
    have hpos := Nat.two_pow_pos (m.retryCount + 1)
    simp only [processOneOutbox, hpub, outboxUpdateRetry, List.mem_map] at hm2
    obtain ⟨a, _, hfa⟩ := hm2
    by_cases ha : a.id = m.id
    · rw [if_pos ha] at hfa
      subst hfa
      refine ⟨rfl, rfl, rfl, ?_⟩
      simp only
      omega
    · rw [if_neg ha] at hfa
      subst hfa
      exact absurd hid ha
  · intro env store limit m ord e hsel hu hp ht m2 hm2 hid
    have hdue := (inbox_selected_spec store env.tPoll limit m hsel).2.1
    have hpos := Nat.two_pow_pos (m.retryCount + 1)
    simp only [processOneInbox, hu, hp, inboxUpdateRetry, List.mem_map] at hm2
    obtain ⟨a, _, hfa⟩ := hm2
    by_cases ha : a.id = m.id
    · rw [if_pos ha] at hfa
      subst hfa
      refine ⟨rfl, rfl, rfl, ?_⟩
      simp only
      omega
    · rw [if_neg ha] at hfa
      subst hfa
      exact absurd hid ha

/-- Closed instantiation of `c5_backoff_monotonicity`: a selected outbox
row with `retry_count = 2` failing at time 9 is rescheduled to
`9 + 2 ^ 3 * 30 = 249`, past its previous due time. -/
theorem c5_backoff_witness :
    obRowRetry2Updated.retryCount = obRowRetry2.retryCount + 1 ∧
    obRowRetry2Updated.lastError = "connection refused" ∧
    obRowRetry2Updated.nextRetryAt =
      obEnvBackoff.tFail + 2 ^ (obRowRetry2.retryCount + 1) * 30 ∧
    obRowRetry2.nextRetryAt < obRowRetry2Updated.nextRetryAt :=
  c5_backoff_monotonicity.1 obEnvBackoff [obRowRetry2] 100 obRowRetry2
    "connection refused" (by decide) rfl (by decide) obRowRetry2Updated
    (by decide) rfl

/-! ## C9 -/

/-- C9: when an inbox row's payload fails to unmarshal at replay time and
the incremented retry count has reached `max_retries`, the worker deletes
the row instead of updating it: no row with that id survives, and every
surviving row is an unchanged member of the store. -/
theorem c9_malformed_at_max_is_deleted
    (env : InboxWorkerEnv) (store : List InboxMessage) (m : InboxMessage)
    (e : String)
    (hu : env.unmarshal m.payload = Except.error e)
    (hmax : m.maxRetries ≤ m.retryCount + 1) :
    processOneInbox env store m = inboxDelete store m.id ∧
    ∀ m2 ∈ processOneInbox env store m, m2 ∈ store ∧ m2.id ≠ m.id := by
  have hdel : processOneInbox env store m = inboxDelete store m.id := by
    simp [processOneInbox, hu, hmax]
  refine ⟨hdel, ?_⟩
  intro m2 hm2
  rw [hdel] at hm2
  unfold inboxDelete at hm2
  have h := List.mem_filter.mp hm2
  exact ⟨h.1, by simpa using h.2⟩

/-- Closed instantiation of `c9_malformed_at_max_is_deleted` at the
spec's scenario: `retry_count = 4`, `max_retries = 5`, deserialization
failure. -/
theorem c9_witness :
    ibEnvBadPayload.unmarshal ibRowAtMax.payload =
      Except.error "unexpected end of JSON input" ∧
    ibRowAtMax.retryCount = 4 ∧ ibRowAtMax.maxRetries = 5 ∧
    processOneInbox ibEnvBadPayload [ibRowAtMax] ibRowAtMax =
      inboxDelete [ibRowAtMax] ibRowAtMax.id :=
  ⟨rfl, rfl, rfl,
   (c9_malformed_at_max_is_deleted ibEnvBadPayload [ibRowAtMax] ibRowAtMax
     "unexpected end of JSON input" rfl (by decide)).1⟩

/-! ## C8 -/

/-- C8: a broker delivery whose payload fails to deserialize is
permanently rejected — `Nack(requeue = false)` — the deserialization
error is returned, and no inbox write is attempted. -/
theorem c8_malformed_rejected_no_inbox
    (cfg : ConsumerCfg) (env : ConsumerEnv) (msg : Delivery) (e : String)
    (h : env.unmarshal msg.body = Except.error e) :
    processMessage cfg env msg =
      { action := BrokerAction.nackDrop, insertAttempted := false,
        insertedRow := none, returnedError := some e } := by
  simp [processMessage, h]

/-- Closed instantiation of `c8_malformed_rejected_no_inbox`. -/
theorem c8_witness :
    envBadPayload.unmarshal sampleDelivery.body =
      Except.error "invalid character" ∧
    processMessage sampleCfg envBadPayload sampleDelivery =
      { action := BrokerAction.nackDrop, insertAttempted := false,
        insertedRow := none, returnedError := some "invalid character" } :=
  ⟨rfl,
   c8_malformed_rejected_no_inbox sampleCfg envBadPayload sampleDelivery
     "invalid character" rfl⟩

/-! ## C1 -/

/-- C1 counterexample: a delivery whose payload deserializes, whose audit
processing fails, and whose inbox insert fails is not acknowledged — the
code nacks it with requeue and returns the insert error, refuting
"acknowledge regardless of whether the inbox insert succeeded or
failed". -/
theorem c1_counterexample :
    (processMessage sampleCfg envInsertFails sampleDelivery).action =
      BrokerAction.nackRequeue ∧
    (processMessage sampleCfg envInsertFails sampleDelivery).action ≠
      BrokerAction.ack ∧
    (processMessage sampleCfg envInsertFails sampleDelivery).returnedError =
      some "failed to save to inbox: inbox store unavailable" := by
  refine ⟨rfl, by decide, rfl⟩

/-- C1 (amended): on an audit-processing failure `processMessage` builds
an `InboxMessage` capturing the raw payload, the payload hash, the
routing metadata and the broker `delivery_tag`, inserts it, and
acknowledges only when the insert succeeds; when the insert fails it
nacks the delivery with requeue and returns the error. -/
theorem c1_inbox_then_ack_amended
    (cfg : ConsumerCfg) (env : ConsumerEnv) (msg : Delivery) (ord : COrder)
    (perr : String)
    (hu : env.unmarshal msg.body = Except.ok ord)
    (hp : firstProcessingError env.processAuditLog
      (convertOrderToAuditLogs env.now ord) = some perr) :
    (env.insertResult (intakeInboxRow cfg env msg perr) = none →
      processMessage cfg env msg =
        { action := BrokerAction.ack, insertAttempted := true,
          insertedRow := some (intakeInboxRow cfg env msg perr),
          returnedError := none }) ∧
    (∀ ie, env.insertResult (intakeInboxRow cfg env msg perr) = some ie →
      processMessage cfg env msg =
        { action := BrokerAction.nackRequeue, insertAttempted := true,
          insertedRow := none,
          returnedError := some ("failed to save to inbox: " ++ ie) }) ∧
    (intakeInboxRow cfg env msg perr).payload = msg.body ∧
    (intakeInboxRow cfg env msg perr).messageID = generateMessageID msg.body ∧
    (intakeInboxRow cfg env msg perr).queueName = cfg.queueName ∧
    (intakeInboxRow cfg env msg perr).routingKey = msg.routingKey ∧
    (intakeInboxRow cfg env msg perr).deliveryTag = msg.deliveryTag := by
  refine ⟨?_, ?_, rfl, rfl, rfl, rfl, rfl⟩
  · intro hins
    simp [processMessage, hu, hp, hins]
  · intro ie hins
    simp [processMessage, hu, hp, hins]

/-- Closed instantiation of `c1_inbox_then_ack_amended`: the
insert-succeeds branch acks after the inbox write. -/
theorem c1_witness :
    envInsertOk.unmarshal sampleDelivery.body = Except.ok sampleOrder ∧
    firstProcessingError envInsertOk.processAuditLog
      (convertOrderToAuditLogs envInsertOk.now sampleOrder) =
        some "audit store unavailable" ∧
    processMessage sampleCfg envInsertOk sampleDelivery =
      { action := BrokerAction.ack, insertAttempted := true,
        insertedRow := some (intakeInboxRow sampleCfg envInsertOk
          sampleDelivery "audit store unavailable"),
        returnedError := none } :=
  ⟨rfl, rfl,
   (c1_inbox_then_ack_amended sampleCfg envInsertOk sampleDelivery sampleOrder
     "audit store unavailable" rfl rfl).1 rfl⟩

/-! ## C6 -/

/-- C6: the inbox idempotency key is a deterministic content hash of the
raw payload — byte-identical bodies yield the same `message_id` — and the
store's unique `message_id` constraint rejects a second row with the same
key, so a replayed delivery creates no duplicate inbox row. -/
theorem c6_idempotent_inbox_key
    (b1 b2 : List Nat) (tbl : List InboxMessage) (m1 m2 : InboxMessage)
    (hb : b1 = b2)
    (h1 : m1 ∈ tbl)
    (hid1 : m1.messageID = generateMessageID b1)
    (hid2 : m2.messageID = generateMessageID b2) :
    generateMessageID b1 = generateMessageID b2 ∧
    inboxInsert tbl m2 = Except.error
      "failed to insert inbox message: duplicate key value violates unique constraint" := by
  subst hb
  refine ⟨rfl, ?_⟩
  unfold inboxInsert
  rw [if_pos]
  exact List.any_eq_true.mpr ⟨m1, h1, by rw [hid1, hid2]; exact beq_self_eq_true _⟩

/-- Closed instantiation of `c6_idempotent_inbox_key`: re-inserting the
row derived from payload `[5]` into a table already holding a row keyed
by the same payload hash is rejected. -/
theorem c6_witness :
    ibSeeded ∈ [ibSeeded] ∧
    ibSeeded.messageID = generateMessageID [5] ∧
    inboxInsert [ibSeeded] ibSeeded = Except.error
      "failed to insert inbox message: duplicate key value violates unique constraint" :=
  ⟨List.mem_singleton.mpr rfl, rfl,
   (c6_idempotent_inbox_key [5] [5] [ibSeeded] ibSeeded ibSeeded rfl
     (List.mem_singleton.mpr rfl) rfl rfl).2⟩

/-! ## Helper lemmas about `logBatchInsert` -/

/-- When `LogBatchInsert` succeeds, every order in the batch was handled:
marshalled, and either published synchronously or queued to the
outbox. -/
theorem logBatchInsert_ok_all_handled (env : AuditEnv) :
    ∀ (orders : List POrder) (store : List OutboxMessage),
      (logBatchInsert env store orders).2 = Except.ok () →
      ∀ o ∈ orders, orderHandled env o := by
  intro orders
  induction orders with
  | nil =>
    intro store _ o ho
    cases ho
  | cons a rest ih =>
    intro store h o ho
    rw [List.mem_cons] at ho
    cases hm : env.marshal a with
    | error e =>
      simp only [logBatchInsert, hm] at h
      exact Except.noConfusion h
    | ok data =>
      cases hp : env.publish a with
      | none =>
        simp only [logBatchInsert, hm, hp] at h
        rcases ho with rfl | ho2
        · exact ⟨data, hm, Or.inl hp⟩
        · exact ih store h o ho2
      | some perr =>
        cases hins : env.outboxInsertErr (mkOutboxMessage env.now data perr) with
        | some ie =>
          simp only [logBatchInsert, hm, hp, hins] at h
          exact Except.noConfusion h
        | none =>
          simp only [logBatchInsert, hm, hp, hins] at h
          rcases ho with rfl | ho2
          · exact ⟨data, hm, Or.inr ⟨perr, hp, hins⟩⟩
          · exact ih _ h o ho2

/-- `LogBatchInsert` only ever appends to the committed outbox table
(its writes go through the pool, not the transaction). -/
theorem logBatchInsert_extends_outbox (env : AuditEnv) :
    ∀ (orders : List POrder) (store : List OutboxMessage),
      ∃ tail, (logBatchInsert env store orders).1 = store ++ tail := by
  intro orders
  induction orders with
  | nil =>
    intro store
    exact ⟨[], by simp [logBatchInsert]⟩
  | cons a rest ih =>
    intro store
    cases hm : env.marshal a with
    | error e =>
      exact ⟨[], by simp [logBatchInsert, hm]⟩
    | ok data =>
      cases hp : env.publish a with
      | none =>
        obtain ⟨tail, htail⟩ := ih store
        exact ⟨tail, by simp only [logBatchInsert, hm, hp]; exact htail⟩
      | some perr =>
        cases hins : env.outboxInsertErr (mkOutboxMessage env.now data perr) with
        | some ie =>
          exact ⟨[], by simp [logBatchInsert, hm, hp, hins]⟩
        | none =>
          obtain ⟨tail, htail⟩ :=
            ih (outboxPoolInsert store (mkOutboxMessage env.now data perr))
          refine ⟨{ mkOutboxMessage env.now data perr with
                    id := outboxNextId store } :: tail, ?_⟩
          simp only [logBatchInsert, hm, hp, hins]
          rw [htail]
          simp [outboxPoolInsert]

/-! ## C2 -/

/-- C2: once the transaction is open and both bulk inserts succeeded, a
failing audit-dispatch step makes `BatchInsert` roll back, return the
error, and not commit; and whenever `BatchInsert` commits, every order of
the batch was either published synchronously or queued to the outbox. -/
theorem c2_rollback_on_audit_failure
    (env : SvcEnv) (db : DBState) (orders orders1 : List POrder)
    (items1 : List POrderItem)
    (hb : env.beginErr = none)
    (ho : env.orderBulkInsert (setOrderTimestamps env.now orders) =
      Except.ok orders1)
    (hi : env.itemBulkInsert (collectOrderItems orders1) = Except.ok items1) :
    (∀ e, (logBatchInsert env.audit db.outbox (reassignItems orders1 items1)).2 =
        Except.error e →
      (batchInsert env db orders).result = Except.error e ∧
      (batchInsert env db orders).rollbackCalled = true ∧
      (batchInsert env db orders).commitCalled = false ∧
      (batchInsert env db orders).db.orders = db.orders) ∧
    ((batchInsert env db orders).commitCalled = true →
      ∀ o ∈ reassignItems orders1 items1, orderHandled env.audit o) := by
  rcases hlog : logBatchInsert env.audit db.outbox (reassignItems orders1 items1)
    with ⟨outbox1, res⟩
  constructor
  · intro e he
    have he2 : res = Except.error e := he
    subst he2
    simp [batchInsert, hb, ho, hi, hlog]
  · intro hc
    cases res with
    | error e2 =>
      simp [batchInsert, hb, ho, hi, hlog] at hc
    | ok u =>
      exact logBatchInsert_ok_all_handled env.audit (reassignItems orders1 items1)
        db.outbox (by rw [hlog])

/-- Closed instantiation of `c2_rollback_on_audit_failure`: a batch whose
single order can be neither published nor queued is rolled back and not
committed. -/
theorem c2_witness :
    svcEnvPartial.beginErr = none ∧
    (batchInsert svcEnvPartial emptyDB [pOrder2]).result =
      Except.error "failed to insert message to outbox: deadlock detected" ∧
    (batchInsert svcEnvPartial emptyDB [pOrder2]).rollbackCalled = true ∧
    (batchInsert svcEnvPartial emptyDB [pOrder2]).commitCalled = false := by
  have h := (c2_rollback_on_audit_failure svcEnvPartial emptyDB [pOrder2]
    (setOrderTimestamps svcEnvPartial.now [pOrder2]) [] rfl rfl rfl).1
    "failed to insert message to outbox: deadlock detected" (by decide)
  exact ⟨rfl, h.1, h.2.1, h.2.2.1⟩

/-! ## C3 -/

/-- C3 counterexample: with two orders whose publishes fail, the first
outbox insert succeeding and the second failing, `BatchInsert` rolls the
transaction back — yet the first order's outbox row remains committed
while no order row does, so the outbox row did not roll back together
with the order rows. -/
theorem c3_counterexample :
    (batchInsert svcEnvPartial emptyDB [pOrder1, pOrder2]).rollbackCalled =
      true ∧
    (batchInsert svcEnvPartial emptyDB [pOrder1, pOrder2]).db.orders = [] ∧
    (batchInsert svcEnvPartial emptyDB [pOrder1, pOrder2]).db.outbox.length =
      1 ∧
    (batchInsert svcEnvPartial emptyDB [pOrder1, pOrder2]).db.outbox ≠ [] := by
  refine ⟨by decide, by decide, by decide, by decide⟩

/-- C3 (amended): on a publish failure the coordinator persists the
order's event through `OutboxRepository.Insert`, which executes on the
shared pool outside the unit-of-work transaction: outbox rows are only
ever appended to the committed store, and a rollback of the order
transaction discards the order and item rows while leaving every inserted
outbox row in place. -/
theorem c3_outbox_outside_tx_amended
    (env : SvcEnv) (db : DBState) (orders : List POrder)
    (hrb : (batchInsert env db orders).rollbackCalled = true) :
    (batchInsert env db orders).db.orders = db.orders ∧
    (batchInsert env db orders).db.orderItems = db.orderItems ∧
    ∃ tail, (batchInsert env db orders).db.outbox = db.outbox ++ tail := by
  cases hb : env.beginErr with
  | some e => simp [batchInsert, hb] at hrb
  | none =>
    cases ho : env.orderBulkInsert (setOrderTimestamps env.now orders) with
    | error e => simp [batchInsert, hb, ho] at hrb
    | ok orders1 =>
      cases hi : env.itemBulkInsert (collectOrderItems orders1) with
      | error e => simp [batchInsert, hb, ho, hi] at hrb
      | ok items1 =>
        rcases hlog : logBatchInsert env.audit db.outbox
          (reassignItems orders1 items1) with ⟨outbox1, res⟩
        cases res with
        | ok u =>
          cases hc : env.commitErr with
          | some e => simp [batchInsert, hb, ho, hi, hlog, hc] at hrb
          | none => simp [batchInsert, hb, ho, hi, hlog, hc] at hrb
        | error e =>
          obtain ⟨tail, htail⟩ := logBatchInsert_extends_outbox env.audit
            (reassignItems orders1 items1) db.outbox
          rw [hlog] at htail
          simp only at htail
          subst htail
          simp [batchInsert, hb, ho, hi, hlog]

/-- Closed instantiation of `c3_outbox_outside_tx_amended` at the
two-order scenario: the rollback leaves committed state with no order
rows while the outbox keeps its appended row. -/
theorem c3_witness :
    (batchInsert svcEnvPartial emptyDB [pOrder1, pOrder2]).rollbackCalled =
      true ∧
    (batchInsert svcEnvPartial emptyDB [pOrder1, pOrder2]).db.orders =
      emptyDB.orders ∧
    (batchInsert svcEnvPartial emptyDB [pOrder1, pOrder2]).db.orderItems =
      emptyDB.orderItems :=
  ⟨by decide,
   (c3_outbox_outside_tx_amended svcEnvPartial emptyDB [pOrder1, pOrder2]
     (by decide)).1,
   (c3_outbox_outside_tx_amended svcEnvPartial emptyDB [pOrder1, pOrder2]
     (by decide)).2.1⟩

/-! ## C10 -/

/-- C10: when the bulk insert of orders (or of order items) fails inside
`BatchInsert`, the method returns the error with neither `Rollback` nor
`Commit` called, and the committed database state is untouched. -/
theorem c10_crud_failure_leaves_tx_open
    (env : SvcEnv) (db : DBState) (orders : List POrder) (e : String)
    (hb : env.beginErr = none)
    (hfail : env.orderBulkInsert (setOrderTimestamps env.now orders) =
        Except.error e ∨
      ∃ orders1,
        env.orderBulkInsert (setOrderTimestamps env.now orders) =
          Except.ok orders1 ∧
        env.itemBulkInsert (collectOrderItems orders1) = Except.error e) :
    (batchInsert env db orders).result = Except.error e ∧
    (batchInsert env db orders).rollbackCalled = false ∧
    (batchInsert env db orders).commitCalled = false ∧
    (batchInsert env db orders).db = db := by
  rcases hfail with ho | ⟨orders1, ho, hi⟩
  · simp [batchInsert, hb, ho]
  · simp [batchInsert, hb, ho, hi]

/-- Closed instantiation of `c10_crud_failure_leaves_tx_open`: a failing
order bulk insert returns the error without any rollback or commit. -/
theorem c10_witness :
    svcEnvOrderInsFails.beginErr = none ∧
    (batchInsert svcEnvOrderInsFails emptyDB [pOrder1]).result =
      Except.error "orders bulk insert failed" ∧
    (batchInsert svcEnvOrderInsFails emptyDB [pOrder1]).rollbackCalled =
      false ∧
    (batchInsert svcEnvOrderInsFails emptyDB [pOrder1]).commitCalled = false := by
  have h := c10_crud_failure_leaves_tx_open svcEnvOrderInsFails emptyDB
    [pOrder1] "orders bulk insert failed" rfl (Or.inl rfl)
  exact ⟨rfl, h.1, h.2.1, h.2.2.1⟩

end OMS
